import Mathlib

/-!
Verification of the ptrace-based tracer in
`src/tools/lttng_ptrace_tracer/lttng_ptrace_tracer.c`.

The C program is embedded shallowly: target-process memory is a function
`Nat → Nat` (byte values taken mod 256), the mutable globals
(`target_pid`, `injection`) form an explicit state record, and each
fallible OS primitive (ptrace attach, fork, PEEKTEXT, malloc, CONT) is an
oracle boolean/value supplied in an environment record.  Words are 8
little-endian bytes, as read by `PTRACE_PEEKTEXT` on x86-64.
-/

namespace PtraceTracer

/-- Target addresses. -/
abbrev Addr := Nat

/-- Target-process memory: byte at each address (values used mod 256). -/
def Mem := Addr → Nat

/-- The 8-byte little-endian word read by `PTRACE_PEEKTEXT` at `a`
(`long orig_instr = ptrace(PTRACE_PEEKTEXT, pid, function_addr, 0)`). -/
def peekWord (m : Mem) (a : Addr) : Nat :=
  m a % 256
  + 256 * (m (a + 1) % 256)
  + 256 ^ 2 * (m (a + 2) % 256)
  + 256 ^ 3 * (m (a + 3) % 256)
  + 256 ^ 4 * (m (a + 4) % 256)
  + 256 ^ 5 * (m (a + 5) % 256)
  + 256 ^ 6 * (m (a + 6) % 256)
  + 256 ^ 7 * (m (a + 7) % 256)

/-- The 8 bytes of a word, lowest first (`memcpy(injection.orig_code,
&orig_instr, 8)` stores the word's bytes, lowest byte first on x86-64). -/
def wordBytes (w : Nat) : List Nat :=
  [w % 256, w / 256 % 256, w / 256 ^ 2 % 256, w / 256 ^ 3 % 256,
   w / 256 ^ 4 % 256, w / 256 ^ 5 % 256, w / 256 ^ 6 % 256, w / 256 ^ 7 % 256]

/-- Modelled from the spec: the trap opcode of the glossary entry
"Breakpoint (software): a single-byte ... patch that replaces live code
with a trap opcode" — `int3` (0xCC) on x86-64.  The source file never
defines or writes any trap opcode. -/
def int3_opcode : Nat := 0xCC

/-- The `struct code_injection` record (lttng_ptrace_tracer.c lines 31-36):
`addr`, `orig_code` (heap buffer, `none` = NULL), `code_size`, `active`. -/
structure CodeInjection where
  addr : Nat
  orig_code : Option (List Nat)
  code_size : Nat
  active : Bool
deriving DecidableEq

/-- The zero-initialized global `injection` (line 38). -/
def injection0 : CodeInjection :=
  { addr := 0, orig_code := none, code_size := 0, active := false }

/-- The tracer's mutable state: the globals `target_pid` and `injection`,
plus the target process's live memory. -/
structure St where
  target_pid : Int
  injection : CodeInjection
  mem : Mem

/-- Embedding of `inject_tracepoint_calls(pid, function_addr)` (lines 118-166):
PEEKTEXT the word at `function_addr` (errno failure → return -1), set
`injection.addr`, `malloc(8)` (failure → `orig_code = NULL`, return -1),
copy the word's 8 bytes into `orig_code`, set `code_size = 8` and
`active = 1`, return 0.  The function performs NO write to target memory:
no POKETEXT, no trap opcode, no verification re-read. -/
def inject_tracepoint_calls (st : St) (function_addr : Nat)
    (peekOk mallocOk : Bool) : Int × St :=
  if !peekOk then (-1, st)
  else
    let orig_instr := peekWord st.mem function_addr
    let st1 := { st with injection := { st.injection with addr := function_addr } }
    if !mallocOk then
      (-1, { st1 with injection := { st1.injection with orig_code := none } })
    else
      (0, { st1 with injection :=
              { st1.injection with
                  orig_code := some (wordBytes orig_instr)
                  code_size := 8
                  active := true } })

/-- Embedding of `cleanup_injection(pid)` (lines 190-214): if `!injection.active`
return 0; otherwise read `orig_code` into a local, free it and NULL the
pointer, set `active = 0`, return 0.  No write to target memory. -/
def cleanup_injection (st : St) : Int × St :=
  if !st.injection.active then (0, st)
  else
    (0, { st with injection :=
            { st.injection with orig_code := none, active := false } })

/-- Wrap into a 32-bit signed `int` (C integer arithmetic of `42 + i`). -/
def i32 (n : Int) : Int := (n + 2 ^ 31) % 2 ^ 32 - 2 ^ 31

/-- A tracepoint event.  `entry` carries the `int` arg1, the
`unsigned`-arithmetic arg2 and the pointer arg4 of
`tracepoint(mylib, my_traced_function_entry, ...)`; the `double` arg3 is
floating point and not modelled.  `exitE` is the argument-less
`my_traced_function_exit` tracepoint. -/
inductive Event where
  | entry (arg1 : Int) (arg2 : Nat) (arg4 : Nat)
  | exitE
deriving DecidableEq

/-- Embedding of `simulate_injected_tracepoints(pid, call_count)` (lines 170-187):
for `i = 0 .. call_count-1` fire an entry tracepoint with arguments
`42 + i`, `0xDEADBEEF + i` (computed in `unsigned int`, hence mod 2^32),
`3.14159 * (i+1)` (not modelled) and `(void*)(0x12345678 + i)`, then an
exit tracepoint.  The emitted events do not depend on the target process
at all. -/
def simulate_injected_tracepoints (call_count : Nat) : List Event :=
  (List.range call_count).flatMap fun i =>
    [Event.entry (i32 (42 + i)) ((0xDEADBEEF + i) % 2 ^ 32) (0x12345678 + i),
     Event.exitE]

/-- The events `main` emits: `simulate_injected_tracepoints(target_pid, 10)`
at line 389, reached unconditionally on the success path. -/
def main_emitted_events : List Event := simulate_injected_tracepoints 10

/-- The first integer argument the sample target actually passes:
`my_traced_function(42, 0xDEADBEEF, "test_string", 3.14159, ...)`
in `src/sample/sample_app/main.c`, on every iteration. -/
def sample_app_arg1 : Int := 42

/-- Observable tracer actions, for ordering properties. -/
inductive Act where
  | attachA   -- PTRACE_ATTACH
  | waitA     -- waitpid
  | forkA     -- fork()
  | childA    -- child branch (TRACEME + execv, not modelled further)
  | setOptsA  -- PTRACE_SETOPTIONS
  | contT     -- PTRACE_CONT
  | stopT     -- kill(target_pid, SIGSTOP); waitpid
  | findS     -- find_symbol_address call
  | injectA   -- inject_tracepoint_calls call
  | simulateA -- simulate_injected_tracepoints(target_pid, 10)
  | cleanupA  -- cleanup_injection call
  | exitA     -- exit(0)
  | detachA   -- PTRACE_DETACH
deriving DecidableEq, BEq

/-- Embedding of `signal_handler(sig)` (lines 217-224): if `target_pid > 0`, run
`cleanup_injection`, then `PTRACE_DETACH`, then `exit(0)`.  Returns the
ordered action list, the final state and the exit status. -/
def signal_handler (st : St) : List Act × St × Nat :=
  if st.target_pid > 0 then
    let r := cleanup_injection st
    ([Act.cleanupA, Act.detachA, Act.exitA], r.2, 0)
  else ([Act.exitA], st, 0)

/-! ### Symbol resolution (`find_symbol_address`, lines 41-114) -/

/-- Does `pat` occur as a contiguous substring of `s` (C `strstr`)? -/
def listContains (s pat : List Char) : Bool :=
  s.tails.any fun t => pat.isPrefixOf t

/-- One line of `/proc/<pid>/maps`: the start address parsed by
`sscanf(line, "%lx", &base_addr)` and the raw text of the line that
`strstr` scans. -/
structure MapLine where
  start : Nat
  text : List Char
deriving DecidableEq

/-- The `strstr` condition of line 58: the line mentions `libmylib.so`
(or `libmylib.so.1`, which `strstr "libmylib.so"` already matches) and
has an `r-xp` permission field. -/
def lineMatchesLib (l : MapLine) : Bool :=
  (listContains l.text ("libmylib.so".toList)
     || listContains l.text ("libmylib.so.1".toList))
  && listContains l.text ("r-xp".toList)

/-- The maps scan (lines 57-63): `base_addr` starts at 0 and the loop
breaks at the first matching line, taking its start address. -/
def scanBase : List MapLine → Nat
  | [] => 0
  | l :: ls => if lineMatchesLib l then l.start else scanBase ls

/-- Modelled from the spec: "Module base address: the lowest virtual
address at which a shared object is mapped into a process's address
space" — the least start address over ALL lines mentioning the module,
for comparison with what the code computes. -/
def specLowestModuleBase (maps : List MapLine) : Option Nat :=
  ((maps.filter fun l => listContains l.text ("libmylib.so".toList)).map
    MapLine.start).min?

/-- 64-bit unsigned subtraction `(unsigned long)a - (unsigned long)b`. -/
def usub64 (a b : Nat) : Nat := (((a : Int) - b).emod (2 ^ 64)).toNat

/-- 64-bit unsigned addition. -/
def uadd64 (a b : Nat) : Nat := (a + b) % 2 ^ 64

/-- The resolver-side oracles of `find_symbol_address`: whether
`/proc/<pid>/maps` opened, whether some `dlopen` of `libmylib.so`
succeeded, the `dlsym` result (absolute address in the resolver, `none`
= NULL) and the `dladdr` `dli_fbase` result (`none` = dladdr failed). -/
structure ResolverEnv where
  mapsOk : Bool
  dlopenOk : Bool
  dlsymAddr : Option Nat
  dlFbase : Option Nat

/-- Embedding of `find_symbol_address(pid, symbol_name)` (lines 41-114): scan maps for
the first `r-xp` line mentioning `libmylib.so`; 0 if none (or maps
unreadable, or the found base is 0); `dlopen` the library in the
resolver's own process, `dlsym` the symbol, `dladdr` for `dli_fbase`;
`symbol_offset = symbol - dli_fbase` (unsigned); return
`base_addr + symbol_offset`. -/
def find_symbol_address (maps : List MapLine) (env : ResolverEnv) : Nat :=
  if !env.mapsOk then 0
  else
    let base_addr := scanBase maps
    if base_addr = 0 then 0
    else if !env.dlopenOk then 0
    else
      match env.dlsymAddr with
      | none => 0
      | some symbol =>
        match env.dlFbase with
        | none => 0
        | some fbase => uadd64 base_addr (usub64 symbol fbase)

/-! ### CLI argument parsing (`strtol(argv[1], &endptr, 10)`, line 254) -/

/-- C-locale `isspace`: space, \t, \n, \v, \f, \r. -/
def isSpaceC (c : Char) : Bool := c == ' ' || (9 ≤ c.toNat && c.toNat ≤ 13)

/-- Consume a run of decimal digits, returning how many were consumed,
the accumulated value and the rest of the string. -/
def digitsAux : List Char → Nat → Nat → Nat × Nat × List Char
  | [], cnt, acc => (cnt, acc, [])
  | c :: cs, cnt, acc =>
    if c.isDigit then digitsAux cs (cnt + 1) (acc * 10 + (c.toNat - 48))
    else (cnt, acc, c :: cs)

/-- The value of an all-digit string. -/
def natOfDigits (s : List Char) : Nat := (digitsAux s 0 0).2.1

/-- Embedding of `strtol(s, &endptr, 10)` on a 64-bit `long`: skip C whitespace, an
optional sign, then decimal digits; the result is clamped to
[-2^63, 2^63-1]; on no conversion the value is 0 and `endptr` is the
original string.  Returns (value, rest-of-string-at-endptr). -/
def strtol10 (s : List Char) : Int × List Char :=
  let t := s.dropWhile isSpaceC
  let u : List Char :=
    if t.head? = some '-' ∨ t.head? = some '+' then t.tail else t
  let r := digitsAux u 0 0
  if r.1 = 0 then (0, s)
  else if t.head? = some '-' then (max (-(r.2.1 : Int)) (-(2 ^ 63)), r.2.2)
  else (min (r.2.1 : Int) (2 ^ 63 - 1), r.2.2)

/-- The attach/spawn dispatch condition of line 256:
`*endptr == '\0' && pid_arg > 0`. -/
def argIsPid (s : List Char) : Bool :=
  let r := strtol10 s
  r.2.isEmpty && decide (0 < r.1)

/-! ### `main` (lines 235-411) -/

/-- The OS/environment oracles `main` consumes: PTRACE_ATTACH success,
the `fork()` return value, the `find_symbol_address` result on the k-th
call (0 = not found; the target's maps change over time, hence a
function of the attempt index), PEEKTEXT success, malloc success, and
the final PTRACE_CONT success. -/
structure Env where
  attachOk : Bool
  forkRes : Int
  findRes : Nat → Nat
  peekOk : Bool
  mallocOk : Bool
  contOk : Bool

/-- The symbol-poll loop body (lines 312-328): up to `fuel` attempts,
each stopping the target, calling `find_symbol_address` (attempt index
`k`), breaking on success and continuing the target on failure.
Returns the found address (0 = all attempts failed). -/
def pollFind (f : Nat → Nat) : Nat → Nat → Nat
  | _, 0 => 0
  | k, fuel + 1 =>
    let a := f k
    if a ≠ 0 then a else pollFind f (k + 1) fuel

/-- The action trace of the poll loop: each iteration stops the target
and calls the resolver; a failed iteration resumes the target. -/
def pollTrace (f : Nat → Nat) : Nat → Nat → List Act
  | _, 0 => []
  | k, fuel + 1 =>
    Act.stopT :: Act.findS ::
      (if f k ≠ 0 then [] else Act.contT :: pollTrace f (k + 1) fuel)

/-- The full resolution phase of `main` (lines 309-341): one initial
PTRACE_CONT, the 10-attempt poll loop, and — if still unfound — one
longer wait with a final stop and one last `find_symbol_address` call. -/
def resolveAddr (f : Nat → Nat) : Nat :=
  let a := pollFind f 0 10
  if a = 0 then f 10 else a

/-- The action trace of the resolution phase. -/
def resolveTrace (f : Nat → Nat) : List Act :=
  Act.contT :: pollTrace f 0 10
    ++ (if pollFind f 0 10 = 0 then [Act.stopT, Act.findS] else [])

/-- The tail of `main` common to both modes (lines 300-411):
PTRACE_SETOPTIONS, the resolution phase (failure → detach, exit 1),
`inject_tracepoint_calls` (failure → detach, exit 1), PTRACE_CONT
(failure → cleanup, detach, exit 1), then sleep, the simulated
tracepoints, waitpid, cleanup, detach, exit 0. -/
def sessionBody (env : Env) (st : St) (acts : List Act) : Nat × List Act × St :=
  let acts := acts ++ Act.setOptsA :: resolveTrace env.findRes
  let a := resolveAddr env.findRes
  if a = 0 then (1, acts ++ [Act.detachA], st)
  else
    let r := inject_tracepoint_calls st a env.peekOk env.mallocOk
    if r.1 ≠ 0 then (1, acts ++ [Act.injectA, Act.detachA], r.2)
    else if env.contOk then
      let c := cleanup_injection r.2
      (0, acts ++ [Act.injectA, Act.contT, Act.simulateA, Act.waitA,
                   Act.cleanupA, Act.detachA], c.2)
    else
      let c := cleanup_injection r.2
      (1, acts ++ [Act.injectA, Act.contT, Act.cleanupA, Act.detachA], c.2)

/-- The attach branch (lines 256-269): `target_pid = (pid_t)pid_arg`
BEFORE the PTRACE_ATTACH call — the `long` is truncated to the 32-bit
signed `pid_t`, modelled by `i32`; on attach failure, exit 1; on
success, waitpid and fall through to the session body. -/
def mainAttach (v : Int) (env : Env) (st : St) : Nat × List Act × St :=
  let st1 := { st with target_pid := i32 v }
  if env.attachOk then sessionBody env st1 [Act.attachA, Act.waitA]
  else (1, [Act.attachA], st1)

/-- The spawn branch (lines 271-298): `target_pid = fork()`; negative →
perror, exit 1; zero → child (TRACEME + execv, not modelled further);
positive → parent waits and falls through to the session body. -/
def mainSpawn (env : Env) (st : St) : Nat × List Act × St :=
  let st1 := { st with target_pid := env.forkRes }
  if env.forkRes < 0 then (1, [Act.forkA], st1)
  else if env.forkRes = 0 then (1, [Act.forkA, Act.childA], st1)
  else sessionBody env st1 [Act.forkA, Act.waitA]

/-- Embedding of `main(argc, argv)`: usage exit 1 when `argc < 2`; dispatch on
`argIsPid argv[1]` to the attach or spawn branch.  Returns the exit
status, the ordered action trace and the final state. -/
def main (argv : List (List Char)) (env : Env) (st : St) :
    Nat × List Act × St :=
  if argv.length < 2 then (1, [], st)
  else
    let a1 := argv.getD 1 []
    if argIsPid a1 then mainAttach (strtol10 a1).1 env st
    else mainSpawn env st

/-! ### Concrete fixtures -/

/-- A target whose code bytes are all `0x55` (`push rbp`, a typical
function-prologue byte), with fresh tracer globals. -/
def stC : St := { target_pid := 0, injection := injection0, mem := fun _ => 0x55 }

/-- A mid-session tracer state: attached to pid 7, all target bytes 0x55. -/
def stP : St := { target_pid := 7, injection := injection0, mem := fun _ => 0x55 }

/-! ### Helper lemmas -/

/-- The low byte of a peeked word is the byte at the address. -/
theorem peekWord_mod256 (m : Mem) (a : Addr) : peekWord m a % 256 = m a % 256 := by
  simp only [peekWord]
  omega

/-! ### C1 -/

/-- C1: the claim that `inject_tracepoint_calls` writes the word back
with the low byte replaced by the trap opcode and that after a
successful install the byte at the breakpoint address equals the trap
opcode is false: on a target whose byte at the address is 0x55, the
install succeeds (returns 0) yet the byte is still 0x55, not the trap
opcode — the function never writes target memory. -/
theorem c1_counterexample :
    (inject_tracepoint_calls stC 4096 true true).1 = 0 ∧
    (inject_tracepoint_calls stC 4096 true true).2.mem 4096 % 256 = 0x55 ∧
    (0x55 : Nat) ≠ int3_opcode := by
  refine ⟨rfl, rfl, by decide⟩

/-- C1 (amended): a successful `inject_tracepoint_calls` reads the word
at the address, records the whole 8-byte word (hence its lowest byte) in
`injection.orig_code`, sets `addr`, `code_size = 8` and `active`, and
performs no write to target memory: the target's memory is unchanged, so
the byte at the breakpoint address still equals its original value.
There is no write-back, no verification re-read and no `PatchFailed`
path; the only failure modes are the PEEKTEXT error and malloc failure,
both returning -1. -/
theorem c1_amended (st : St) (a : Addr) (mOk : Bool) :
    (inject_tracepoint_calls st a true true).1 = 0 ∧
    (inject_tracepoint_calls st a true true).2.injection =
      { addr := a, orig_code := some (wordBytes (peekWord st.mem a)),
        code_size := 8, active := true } ∧
    (inject_tracepoint_calls st a true true).2.mem = st.mem ∧
    (inject_tracepoint_calls st a true true).2.mem a % 256 = st.mem a % 256 ∧
    inject_tracepoint_calls st a false mOk = (-1, st) ∧
    (inject_tracepoint_calls st a true false).1 = -1 := by
  refine ⟨rfl, rfl, rfl, rfl, rfl, rfl⟩

/-! ### C2 -/

/-- C2: install followed by remove leaves the byte at the breakpoint
address equal to the originally captured byte (the head of the saved
`orig_code` buffer), and in fact leaves the whole target memory exactly
as it was; once removed, `cleanup_injection` is idempotent (`active` is
checked first).  This holds because neither operation ever writes target
memory. -/
theorem c2_roundtrip (st : St) (a : Addr) :
    (cleanup_injection (inject_tracepoint_calls st a true true).2).1 = 0 ∧
    (inject_tracepoint_calls st a true true).2.injection.orig_code =
      some (wordBytes (peekWord st.mem a)) ∧
    (wordBytes (peekWord st.mem a)).headI = st.mem a % 256 ∧
    (cleanup_injection (inject_tracepoint_calls st a true true).2).2.mem a % 256 =
      (wordBytes (peekWord st.mem a)).headI ∧
    (cleanup_injection (inject_tracepoint_calls st a true true).2).2.mem = st.mem ∧
    (cleanup_injection (inject_tracepoint_calls st a true true).2).2.injection.active
      = false ∧
    cleanup_injection
        (cleanup_injection (inject_tracepoint_calls st a true true).2).2 =
      (0, (cleanup_injection (inject_tracepoint_calls st a true true).2).2) := by
  refine ⟨rfl, rfl, ?_, ?_, rfl, rfl, rfl⟩
  · simpa [wordBytes] using peekWord_mod256 st.mem a
  · simpa [wordBytes, cleanup_injection, inject_tracepoint_calls] using
      (peekWord_mod256 st.mem a).symm

/-! ### C4 -/

/-- C4: the invariant "`injection.active` ⇔ the live byte at the
breakpoint address equals the trap opcode" is violated at a reachable
state: immediately after a successful install on a target whose byte at
the address is 0x55, `active` is true but the live byte is 0x55, not the
trap opcode. -/
theorem c4_counterexample :
    (inject_tracepoint_calls stC 4096 true true).2.injection.active = true ∧
    (inject_tracepoint_calls stC 4096 true true).2.mem
        ((inject_tracepoint_calls stC 4096 true true).2.injection.addr) % 256
      = 0x55 ∧
    ¬((inject_tracepoint_calls stC 4096 true true).2.injection.active = true ↔
        (inject_tracepoint_calls stC 4096 true true).2.mem
            ((inject_tracepoint_calls stC 4096 true true).2.injection.addr) % 256
          = int3_opcode) := by
  refine ⟨rfl, rfl, ?_⟩
  intro h
  exact absurd (h.mp rfl) (by decide)

/-- C4 (amended): the install/remove lifecycle never modifies the
target's memory, so the live byte at the breakpoint address always
equals its original value; `injection.active` merely tracks whether an
install has happened without a cleanup — it is true after a successful
install and false after `cleanup_injection`, with the target memory
unchanged by both.  The spec's equivalence fails at every armed state
whose original byte is not the trap opcode. -/
theorem c4_amended (st : St) (a : Addr) :
    (inject_tracepoint_calls st a true true).2.injection.active = true ∧
    (inject_tracepoint_calls st a true true).2.mem = st.mem ∧
    (cleanup_injection st).2.injection.active = false ∧
    (cleanup_injection st).2.mem = st.mem := by
  refine ⟨rfl, rfl, ?_, ?_⟩ <;>
    · unfold cleanup_injection
      rcases h : st.injection.active <;> simp [h]

/-! ### C7 -/

/-- C7: `signal_handler` on an interrupted mid-session state (attached
target, successful install) performs, in order, `cleanup_injection`,
then `PTRACE_DETACH`, then `exit(0)`; the target's memory at the
breakpoint address equals the original byte before the exit (the
lifecycle never altered it), and the injection record is released. -/
theorem c7_interrupt_cleanup (st : St) (a : Addr) (h : 0 < st.target_pid) :
    (signal_handler (inject_tracepoint_calls st a true true).2).1 =
      [Act.cleanupA, Act.detachA, Act.exitA] ∧
    (signal_handler (inject_tracepoint_calls st a true true).2).2.1.mem = st.mem ∧
    (signal_handler (inject_tracepoint_calls st a true true).2).2.1.mem a % 256 =
      st.mem a % 256 ∧
    (signal_handler (inject_tracepoint_calls st a true true).2).2.1.injection.active
      = false ∧
    (signal_handler (inject_tracepoint_calls st a true true).2).2.2 = 0 := by
  have hp : ((inject_tracepoint_calls st a true true).2).target_pid = st.target_pid :=
    rfl
  unfold signal_handler
  rw [hp]
  simp [h, cleanup_injection, inject_tracepoint_calls]

/-- C7 witness: the handler property at a concrete mid-session state. -/
theorem c7_interrupt_cleanup_witness :
    0 < stP.target_pid ∧
    ((signal_handler (inject_tracepoint_calls stP 4096 true true).2).1 =
      [Act.cleanupA, Act.detachA, Act.exitA] ∧
    (signal_handler (inject_tracepoint_calls stP 4096 true true).2).2.1.mem = stP.mem ∧
    (signal_handler (inject_tracepoint_calls stP 4096 true true).2).2.1.mem 4096 % 256 =
      stP.mem 4096 % 256 ∧
    (signal_handler (inject_tracepoint_calls stP 4096 true true).2).2.1.injection.active
      = false ∧
    (signal_handler (inject_tracepoint_calls stP 4096 true true).2).2.2 = 0) :=
  ⟨by decide, c7_interrupt_cleanup stP 4096 (by decide)⟩

/-! ### C6 -/

/-- A resolver oracle for a target that never loads the module:
`find_symbol_address` returns 0 on every call. -/
def neverFound : Nat → Nat := fun _ => 0

/-- The action trace of the resolution phase when the module never
loads: the initial continue, ten stop/find/continue attempts, and the
final longer-wait stop with one last find — 11 bounded attempts. -/
def failTrace : List Act :=
  [Act.contT,
   Act.stopT, Act.findS, Act.contT, Act.stopT, Act.findS, Act.contT,
   Act.stopT, Act.findS, Act.contT, Act.stopT, Act.findS, Act.contT,
   Act.stopT, Act.findS, Act.contT, Act.stopT, Act.findS, Act.contT,
   Act.stopT, Act.findS, Act.contT, Act.stopT, Act.findS, Act.contT,
   Act.stopT, Act.findS, Act.contT, Act.stopT, Act.findS, Act.contT,
   Act.stopT, Act.findS]

/-- C6: when the module is never loaded (every `find_symbol_address`
call returns 0), the resolution phase of `main` fails after exactly 11
bounded attempts — ten stop/find/continue polls plus the single
longer-wait retry, the target being stopped and resumed between checks —
and the session is terminal: the tracer detaches and exits with status
1, with no further retries and no change to tracer state.  The embedding
is a total function, so the phase always terminates. -/
theorem c6_module_never_loaded (f : Nat → Nat) (ao : Bool) (fr : Int)
    (p m c : Bool) (st : St) (acts : List Act) (h : ∀ k, f k = 0) :
    resolveAddr f = 0 ∧
    resolveTrace f = failTrace ∧
    failTrace.count Act.findS = 11 ∧
    (sessionBody ⟨ao, fr, f, p, m, c⟩ st acts).1 = 1 ∧
    (sessionBody ⟨ao, fr, f, p, m, c⟩ st acts).2.1 =
      acts ++ Act.setOptsA :: (failTrace ++ [Act.detachA]) ∧
    (sessionBody ⟨ao, fr, f, p, m, c⟩ st acts).2.2 = st := by
  have hp : resolveAddr f = 0 := by
    simp [resolveAddr, pollFind, h]
  have ht : resolveTrace f = failTrace := by
    simp [resolveTrace, pollTrace, pollFind, h, failTrace]
  refine ⟨hp, ht, by decide, ?_, ?_, ?_⟩ <;>
    simp [sessionBody, hp, ht]

/-- C6 witness: the never-loaded session at concrete oracles. -/
theorem c6_module_never_loaded_witness :
    (∀ k, neverFound k = 0) ∧
    (resolveAddr neverFound = 0 ∧
     resolveTrace neverFound = failTrace ∧
     failTrace.count Act.findS = 11 ∧
     (sessionBody ⟨true, 3, neverFound, true, true, true⟩ stC []).1 = 1 ∧
     (sessionBody ⟨true, 3, neverFound, true, true, true⟩ stC []).2.1 =
       [] ++ Act.setOptsA :: (failTrace ++ [Act.detachA]) ∧
     (sessionBody ⟨true, 3, neverFound, true, true, true⟩ stC []).2.2 = stC) :=
  ⟨fun _ => rfl,
   c6_module_never_loaded neverFound true 3 true true true stC [] fun _ => rfl⟩

/-! ### C8 -/

/-- An environment whose PTRACE_ATTACH fails (no such process). -/
def envAF : Env :=
  { attachOk := false, forkRes := 3, findRes := fun _ => 0x1000,
    peekOk := true, mallocOk := true, contOk := true }

/-- C8: the claim that a failed attach "never partially mutates engine
state" is false: `main` assigns the global `target_pid = (pid_t)pid_arg`
BEFORE calling `PTRACE_ATTACH` (line 258 vs 262), so after the failing
attach to pid 424242 the engine's recorded target pid is 424242,
changed from its initial 0, even though the tracer exits 1. -/
theorem c8_counterexample :
    (main [['t'], "424242".toList] envAF stC).1 = 1 ∧
    (main [['t'], "424242".toList] envAF stC).2.2.target_pid = 424242 ∧
    stC.target_pid = 0 ∧ ((424242 : Int) ≠ 0) := by
  refine ⟨rfl, rfl, rfl, by decide⟩

/-- C8 (amended): attaching to a nonexistent pid fails and `main` exits
with status 1 having performed only the attach attempt, and the
injection record and target memory are untouched — but the recorded
target pid is assigned `(pid_t)pid_arg` (the `strtol` value truncated to
32-bit signed, line 258) before the attach call and is left so on the
failure path; for every requested pid in the valid 32-bit range the
stored value is the requested pid itself and is nonzero, so engine state
is partially mutated. -/
theorem c8_amended (s t : List Char) (env : Env) (st : St)
    (h1 : argIsPid s = true) (h2 : env.attachOk = false) :
    main [t, s] env st =
      (1, [Act.attachA], { st with target_pid := i32 (strtol10 s).1 }) ∧
    ({ st with target_pid := i32 (strtol10 s).1 } : St).injection =
      st.injection ∧
    ({ st with target_pid := i32 (strtol10 s).1 } : St).mem = st.mem ∧
    0 < (strtol10 s).1 ∧
    ((strtol10 s).1 < 2 ^ 31 →
      i32 (strtol10 s).1 = (strtol10 s).1 ∧ 0 < i32 (strtol10 s).1) := by
  have hpos : 0 < (strtol10 s).1 := by
    simp [argIsPid] at h1
    exact h1.2
  refine ⟨?_, rfl, rfl, hpos, ?_⟩
  · simp [main, mainAttach, h1, h2]
  · intro h3
    have he : i32 (strtol10 s).1 = (strtol10 s).1 := by
      simp only [i32]
      omega
    exact ⟨he, by rw [he]; exact hpos⟩

/-- C8 witness: the failing attach at pid 424242 from fresh state. -/
theorem c8_amended_witness :
    (argIsPid ("424242".toList) = true ∧ envAF.attachOk = false) ∧
    (main [['t'], "424242".toList] envAF stC =
       (1, [Act.attachA],
        { stC with target_pid := i32 ((strtol10 ("424242".toList)).1) }) ∧
     ({ stC with target_pid := i32 ((strtol10 ("424242".toList)).1) } : St).injection
       = stC.injection ∧
     ({ stC with target_pid := i32 ((strtol10 ("424242".toList)).1) } : St).mem
       = stC.mem ∧
     0 < (strtol10 ("424242".toList)).1 ∧
     ((strtol10 ("424242".toList)).1 < 2 ^ 31 →
       i32 ((strtol10 ("424242".toList)).1) = (strtol10 ("424242".toList)).1 ∧
       0 < i32 ((strtol10 ("424242".toList)).1))) :=
  ⟨⟨by decide, rfl⟩,
   c8_amended ("424242".toList) ['t'] envAF stC (by decide) rfl⟩

/-! ### C5 -/

/-- The maps scan returns the start address of the FIRST matching line
(0 when none matches). -/
theorem scanBase_eq (maps : List MapLine) :
    scanBase maps = ((maps.find? lineMatchesLib).map MapLine.start).getD 0 := by
  induction maps with
  | nil => rfl
  | cons l ls ih =>
    by_cases h : lineMatchesLib l
    · simp [scanBase, List.find?_cons_of_pos, h]
    · simp [scanBase, List.find?_cons_of_neg, h, ih]

/-- A maps listing in which the module's lowest mapping (its read-only
segment, at 0x1000) precedes its executable segment (at 0x2000), as laid
out by a modern dynamic loader. -/
def mapsC : List MapLine :=
  [⟨4096, ("00001000-00002000 r--p /usr/lib/libmylib.so").toList⟩,
   ⟨8192, ("00002000-00003000 r-xp /usr/lib/libmylib.so").toList⟩]

/-- A resolver for which `dlsym` found the symbol at 5000 inside its own
load of the library based at 4000 (`dli_fbase`): offset 1000. -/
def envRC : ResolverEnv :=
  { mapsOk := true, dlopenOk := true, dlsymAddr := some 5000, dlFbase := some 4000 }

/-- C5: the claim that the returned address is
`lowest mapped address of the module + symbol_offset` is false: the code
takes the start of the first `r-xp` line mentioning the module, not the
module's lowest mapping.  On `mapsC` the module's lowest mapped address
is 4096 (the `r--p` segment) but the code uses 8192, returning
8192 + 1000 = 9192 ≠ 4096 + 1000. -/
theorem c5_counterexample :
    find_symbol_address mapsC envRC = 9192 ∧
    specLowestModuleBase mapsC = some 4096 ∧
    usub64 5000 4000 = 1000 ∧
    (9192 : Nat) ≠ uadd64 4096 1000 := by
  refine ⟨by decide, by decide, by decide, by decide⟩

/-- C5 (amended): whenever `find_symbol_address` succeeds (returns
nonzero), the maps file was readable, the resolver-side `dlopen`,
`dlsym` and `dladdr` all succeeded, and the result equals
`base + (symbol - dli_fbase)` in 64-bit unsigned arithmetic, where
`base` is the nonzero start address of the FIRST maps line that both
mentions `libmylib.so` and has `r-xp` — the first executable mapping,
which need not be the module's lowest mapped address. -/
theorem c5_amended (maps : List MapLine) (env : ResolverEnv)
    (h : find_symbol_address maps env ≠ 0) :
    ∃ l sym fbase,
      maps.find? lineMatchesLib = some l ∧
      l.start ≠ 0 ∧
      env.mapsOk = true ∧ env.dlopenOk = true ∧
      env.dlsymAddr = some sym ∧ env.dlFbase = some fbase ∧
      find_symbol_address maps env = uadd64 l.start (usub64 sym fbase) := by
  obtain ⟨mo, dk, ds, df⟩ := env
  cases mo with
  | false => simp [find_symbol_address] at h
  | true =>
    cases hb : scanBase maps with
    | zero => simp [find_symbol_address, hb] at h
    | succ b =>
      cases dk with
      | false => simp [find_symbol_address] at h
      | true =>
        cases ds with
        | none => simp [find_symbol_address, hb] at h
        | some sym =>
          cases df with
          | none => simp [find_symbol_address, hb] at h
          | some fbase =>
            have hfind : ∃ l, maps.find? lineMatchesLib = some l ∧
                l.start = b + 1 := by
              have := scanBase_eq maps
              rw [hb] at this
              cases hf : maps.find? lineMatchesLib with
              | none => rw [hf] at this; simp at this
              | some l => rw [hf] at this; simp at this; exact ⟨l, rfl, this.symm⟩
            obtain ⟨l, hl, hls⟩ := hfind
            refine ⟨l, sym, fbase, hl, by omega, rfl, rfl, rfl, rfl, ?_⟩
            simp [find_symbol_address, hb, hls]

/-- C5 witness: the amended statement at the concrete maps listing. -/
theorem c5_amended_witness :
    find_symbol_address mapsC envRC ≠ 0 ∧
    (∃ l sym fbase,
      mapsC.find? lineMatchesLib = some l ∧
      l.start ≠ 0 ∧
      envRC.mapsOk = true ∧ envRC.dlopenOk = true ∧
      envRC.dlsymAddr = some sym ∧ envRC.dlFbase = some fbase ∧
      find_symbol_address mapsC envRC = uadd64 l.start (usub64 sym fbase)) :=
  ⟨by decide, c5_amended mapsC envRC (by decide)⟩

/-! ### C3 -/

/-- Unfolding one simulated call: the events of `call_count + 1` calls
are those of `call_count` calls followed by one entry/exit pair. -/
theorem simulate_succ (n : Nat) :
    simulate_injected_tracepoints (n + 1) =
      simulate_injected_tracepoints n ++
        [Event.entry (i32 (42 + n)) ((0xDEADBEEF + n) % 2 ^ 32) (0x12345678 + n),
         Event.exitE] := by
  simp [simulate_injected_tracepoints, List.range_succ]

/-- Simulating `call_count` calls emits `2 * call_count` events. -/
theorem simulate_length (n : Nat) :
    (simulate_injected_tracepoints n).length = 2 * n := by
  induction n with
  | zero => rfl
  | succ n ih => rw [simulate_succ]; simp [ih]; omega

/-- C3: the claim that one target call yields exactly one Entry and one
Exit event with the Entry's first argument equal to the value the target
passed is false: `main` emits the events of
`simulate_injected_tracepoints(pid, 10)` unconditionally — 20 events,
not 2 — and the arguments are fabricated by the tracer: the third event
is an Entry with first argument 43, while the sample target passes 42 on
every call. -/
theorem c3_counterexample :
    main_emitted_events.length = 20 ∧
    main_emitted_events.length ≠ 2 ∧
    main_emitted_events[2]? = some (Event.entry 43 0xDEADBEF0 0x12345679) ∧
    sample_app_arg1 = 42 ∧ ((43 : Int) ≠ sample_app_arg1) := by
  refine ⟨by decide, by decide, by decide, rfl, by decide⟩

/-- C3 (amended): `main` emits, independently of the target's actual
calls and arguments, exactly 10 entry/exit pairs
(`simulate_injected_tracepoints(target_pid, 10)` at line 389): for every
`call_count` and every `i < call_count` the event list has length
`2 * call_count` and splits as a prefix of length `2 * i` followed
immediately by the `i`-th Entry — whose fabricated first integer
argument is `42 + i` — and its paired Exit. -/
theorem c3_amended (n i : Nat) (h : i < n) :
    (simulate_injected_tracepoints n).length = 2 * n ∧
    main_emitted_events = simulate_injected_tracepoints 10 ∧
    ∃ pre post,
      simulate_injected_tracepoints n =
        pre ++ Event.entry (i32 (42 + i)) ((0xDEADBEEF + i) % 2 ^ 32)
                 (0x12345678 + i) :: Event.exitE :: post ∧
      pre.length = 2 * i := by
  refine ⟨simulate_length n, rfl, ?_⟩
  induction n with
  | zero => omega
  | succ n ih =>
    rcases Nat.lt_succ_iff_lt_or_eq.mp h with h' | h'
    · obtain ⟨pre, post, he, hl⟩ := ih h'
      refine ⟨pre,
        post ++ [Event.entry (i32 (42 + n)) ((0xDEADBEEF + n) % 2 ^ 32)
                   (0x12345678 + n), Event.exitE], ?_, hl⟩
      rw [simulate_succ, he]
      simp
    · subst h'
      refine ⟨simulate_injected_tracepoints i, [], ?_, simulate_length i⟩
      rw [simulate_succ]

/-- C3 witness: the pair decomposition at `call_count = 10`, `i = 3`. -/
theorem c3_amended_witness :
    3 < 10 ∧
    ((simulate_injected_tracepoints 10).length = 2 * 10 ∧
     main_emitted_events = simulate_injected_tracepoints 10 ∧
     ∃ pre post,
       simulate_injected_tracepoints 10 =
         pre ++ Event.entry (i32 (42 + 3)) ((0xDEADBEEF + 3) % 2 ^ 32)
                  (0x12345678 + 3) :: Event.exitE :: post ∧
       pre.length = 2 * 3) :=
  ⟨by decide, c3_amended 10 3 (by decide)⟩

/-! ### C9 -/

/-- The install `inject_tracepoint_calls` succeeds iff both PEEKTEXT and malloc do. -/
theorem inject_fst (st : St) (a : Addr) (p m : Bool) :
    (inject_tracepoint_calls st a p m).1 = if p && m then 0 else -1 := by
  cases p <;> cases m <;> rfl

/-- Whether `main` gets control of a target: a successful attach in
attach mode, a successful fork (positive child pid) in spawn mode. -/
def controlOk (a1 : List Char) (env : Env) : Bool :=
  if argIsPid a1 then env.attachOk else decide (0 < env.forkRes)

/-- The session tail exits 0 exactly when resolution, the patch
(PEEKTEXT + malloc) and the final PTRACE_CONT all succeed; otherwise 1. -/
theorem sessionBody_fst (env : Env) (st : St) (acts : List Act) :
    (sessionBody env st acts).1 =
      if resolveAddr env.findRes ≠ 0 ∧ env.peekOk = true ∧ env.mallocOk = true
          ∧ env.contOk = true then 0 else 1 := by
  simp only [sessionBody]
  by_cases h0 : resolveAddr env.findRes = 0
  · simp [h0]
  · rw [if_neg h0, inject_fst]
    cases hp : env.peekOk <;> cases hm : env.mallocOk <;>
      cases hc : env.contOk <;> simp [h0, hp, hm, hc]

/-- The session tail's first action is the first queued action. -/
theorem sessionBody_head (env : Env) (st : St) (x : Act) (xs : List Act) :
    (sessionBody env st (x :: xs)).2.1.head? = some x := by
  simp only [sessionBody]
  by_cases h0 : resolveAddr env.findRes = 0
  · simp [h0]
  · rw [if_neg h0, inject_fst]
    cases hp : env.peekOk <;> cases hm : env.mallocOk <;>
      cases hc : env.contOk <;> simp [h0]

/-- The last action of a list ending in PTRACE_DETACH. -/
theorem getLast_detach (l : List Act) (tl : List Act)
    (h : tl.getLast? = some Act.detachA) (hne : tl ≠ []) :
    (l ++ tl).getLast? = some Act.detachA := by
  rw [List.getLast?_append_of_ne_nil _ hne, h]

/-- Every exit of the session tail, successful or not, ends with
PTRACE_DETACH. -/
theorem sessionBody_last (env : Env) (st : St) (acts : List Act) :
    (sessionBody env st acts).2.1.getLast? = some Act.detachA := by
  simp only [sessionBody]
  by_cases h0 : resolveAddr env.findRes = 0
  · rw [if_pos h0]
    exact getLast_detach _ _ rfl (by simp)
  · rw [if_neg h0, inject_fst]
    cases hp : env.peekOk <;> cases hm : env.mallocOk <;>
      cases hc : env.contOk <;>
    · simp only [Bool.and_self, Bool.and_false, Bool.and_true, Bool.false_and,
        Bool.true_and, if_true, if_false, reduceIte, ne_eq]
      split <;> exact getLast_detach _ _ rfl (by simp)

/-- The first action of a `main` run with at least two argv entries is
the attach attempt in attach mode, the fork in spawn mode. -/
theorem main_mode_head (t a1 : List Char) (rest : List (List Char))
    (env : Env) (st : St) :
    (main (t :: a1 :: rest) env st).2.1.head? =
      some (if argIsPid a1 then Act.attachA else Act.forkA) := by
  have hlen : ¬((t :: a1 :: rest).length < 2) := by simp
  by_cases ha : argIsPid a1
  · by_cases hao : env.attachOk
    · have hm : main (t :: a1 :: rest) env st =
          sessionBody env { st with target_pid := i32 (strtol10 a1).1 }
            [Act.attachA, Act.waitA] := by
        simp [main, mainAttach, ha, hao, hlen]
      rw [hm, sessionBody_head]; simp [ha]
    · have hm : main (t :: a1 :: rest) env st =
          (1, [Act.attachA], { st with target_pid := i32 (strtol10 a1).1 }) := by
        simp [main, mainAttach, ha, hao, hlen]
      rw [hm]; simp [ha]
  · have hb : argIsPid a1 = false := by simpa using ha
    rcases lt_trichotomy env.forkRes 0 with hf | hf | hf
    · have hm : main (t :: a1 :: rest) env st =
          (1, [Act.forkA], { st with target_pid := env.forkRes }) := by
        simp [main, mainSpawn, hb, hf, hlen]
      rw [hm]; simp [hb]
    · have hm : main (t :: a1 :: rest) env st =
          (1, [Act.forkA, Act.childA], { st with target_pid := env.forkRes }) := by
        simp [main, mainSpawn, hb, hlen, ← hf]
      rw [hm]; simp [hb]
    · have hm : main (t :: a1 :: rest) env st =
          sessionBody env { st with target_pid := env.forkRes }
            [Act.forkA, Act.waitA] := by
        have h1 : ¬(env.forkRes < 0) := by omega
        have h2 : ¬(env.forkRes = 0) := by omega
        simp [main, mainSpawn, hb, h1, h2, hlen]
      rw [hm, sessionBody_head]; simp [hb]

/-- C9: the CLI surface of `main`: with at least one argument after the
program name, a first argument accepted by the pid check dispatches to
attach mode (first action PTRACE_ATTACH) and any other first argument to
spawn mode (first action fork); with no argument `main` prints usage and
exits 1.  The exit status is always 0 or 1, it is 0 exactly when the
tracer got control of a target (attach or fork succeeded) and
resolution, the memory patch and the final continue all succeeded —
i.e. on a clean detach — and a status-0 run's final action is
PTRACE_DETACH. -/
theorem c9_cli_surface (t a1 : List Char) (rest : List (List Char))
    (env : Env) (st : St) :
    main [t] env st = (1, [], st) ∧
    (main (t :: a1 :: rest) env st).2.1.head? =
      some (if argIsPid a1 then Act.attachA else Act.forkA) ∧
    ((main (t :: a1 :: rest) env st).1 = 0 ∨
      (main (t :: a1 :: rest) env st).1 = 1) ∧
    ((main (t :: a1 :: rest) env st).1 = 0 ↔
      (controlOk a1 env = true ∧ resolveAddr env.findRes ≠ 0 ∧
       env.peekOk = true ∧ env.mallocOk = true ∧ env.contOk = true)) ∧
    ((main (t :: a1 :: rest) env st).1 = 0 →
      (main (t :: a1 :: rest) env st).2.1.getLast? = some Act.detachA) := by
  have hlen : ¬((t :: a1 :: rest).length < 2) := by simp
  by_cases ha : argIsPid a1
  · -- attach mode
    by_cases hao : env.attachOk
    · have hm : main (t :: a1 :: rest) env st =
          sessionBody env { st with target_pid := i32 (strtol10 a1).1 }
            [Act.attachA, Act.waitA] := by
        simp [main, mainAttach, ha, hao, hlen]
      refine ⟨rfl, main_mode_head t a1 rest env st, ?_, ?_, ?_⟩
      · rw [hm, sessionBody_fst]; split <;> simp
      · rw [hm, sessionBody_fst, controlOk, if_pos ha]
        split <;> simp_all [hao]
      · intro _; rw [hm, sessionBody_last]
    · have hm : main (t :: a1 :: rest) env st =
          (1, [Act.attachA], { st with target_pid := i32 (strtol10 a1).1 }) := by
        simp [main, mainAttach, ha, hao, hlen]
      refine ⟨rfl, main_mode_head t a1 rest env st, ?_, ?_, ?_⟩
      · rw [hm]; simp
      · rw [hm, controlOk, if_pos ha]; simp [hao]
      · intro hz; rw [hm] at hz; simp at hz
  · -- spawn mode
    have hb : argIsPid a1 = false := by simpa using ha
    rcases lt_trichotomy env.forkRes 0 with hf | hf | hf
    · have hm : main (t :: a1 :: rest) env st =
          (1, [Act.forkA], { st with target_pid := env.forkRes }) := by
        simp [main, mainSpawn, hb, hf, hlen]
      refine ⟨rfl, main_mode_head t a1 rest env st, ?_, ?_, ?_⟩
      · rw [hm]; simp
      · rw [hm, controlOk, if_neg ha]
        constructor
        · intro hz; simp at hz
        · rintro ⟨hc, -⟩; simp at hc; omega
      · intro hz; rw [hm] at hz; simp at hz
    · have hm : main (t :: a1 :: rest) env st =
          (1, [Act.forkA, Act.childA], { st with target_pid := env.forkRes }) := by
        simp [main, mainSpawn, hb, hlen, ← hf]
      refine ⟨rfl, main_mode_head t a1 rest env st, ?_, ?_, ?_⟩
      · rw [hm]; simp
      · rw [hm, controlOk, if_neg ha]
        constructor
        · intro hz; simp at hz
        · rintro ⟨hc, -⟩; simp at hc; omega
      · intro hz; rw [hm] at hz; simp at hz
    · have hm : main (t :: a1 :: rest) env st =
          sessionBody env { st with target_pid := env.forkRes }
            [Act.forkA, Act.waitA] := by
        have h1 : ¬(env.forkRes < 0) := by omega
        have h2 : ¬(env.forkRes = 0) := by omega
        simp [main, mainSpawn, hb, h1, h2, hlen]
      refine ⟨rfl, main_mode_head t a1 rest env st, ?_, ?_, ?_⟩
      · rw [hm, sessionBody_fst]; split <;> simp
      · rw [hm, sessionBody_fst, controlOk, if_neg ha]
        split <;> simp_all [hf]
      · intro _; rw [hm, sessionBody_last]

/-- A fully healthy environment: attach succeeds, fork would return pid
3, the symbol is found at 0x1000 on the first poll, PEEKTEXT, malloc and
the final continue succeed. -/
def envOkC : Env :=
  { attachOk := true, forkRes := 3, findRes := fun _ => 0x1000,
    peekOk := true, mallocOk := true, contOk := true }

/-- C9 witness: the CLI surface at a concrete healthy attach session. -/
theorem c9_cli_surface_witness :
    main [['t']] envOkC stC = (1, [], stC) ∧
    (main [['t'], "12345".toList] envOkC stC).2.1.head? =
      some (if argIsPid ("12345".toList) then Act.attachA else Act.forkA) ∧
    ((main [['t'], "12345".toList] envOkC stC).1 = 0 ∨
      (main [['t'], "12345".toList] envOkC stC).1 = 1) ∧
    ((main [['t'], "12345".toList] envOkC stC).1 = 0 ↔
      (controlOk ("12345".toList) envOkC = true ∧
       resolveAddr envOkC.findRes ≠ 0 ∧
       envOkC.peekOk = true ∧ envOkC.mallocOk = true ∧ envOkC.contOk = true)) ∧
    ((main [['t'], "12345".toList] envOkC stC).1 = 0 →
      (main [['t'], "12345".toList] envOkC stC).2.1.getLast? =
        some Act.detachA) :=
  c9_cli_surface ['t'] ("12345".toList) [] envOkC stC

/-! ### C10 -/

/-- A decimal digit's code point lies in [48, 57]. -/
theorem digit_toNat (c : Char) (h : c.isDigit = true) :
    48 ≤ c.toNat ∧ c.toNat ≤ 57 := by
  simp [Char.isDigit] at h
  obtain ⟨h1, h2⟩ := h
  exact ⟨h1, h2⟩

/-- A digit is not C whitespace. -/
theorem digit_not_space (c : Char) (h : c.isDigit = true) : isSpaceC c = false := by
  obtain ⟨h1, h2⟩ := digit_toNat c h
  have hc : ¬(c = ' ') := by
    intro he; rw [he] at h1; exact absurd h1 (by decide)
  simp [isSpaceC, hc]
  omega

/-- A digit is neither '+' nor '-'. -/
theorem digit_ne_sign (c : Char) (h : c.isDigit = true) : c ≠ '+' ∧ c ≠ '-' := by
  obtain ⟨h1, h2⟩ := digit_toNat c h
  constructor <;> intro he <;> rw [he] at h1 <;> exact absurd h1 (by decide)

/-- On an all-digit string the digit scanner consumes everything. -/
theorem digitsAux_all (ds : List Char) (h : ds.all Char.isDigit = true)
    (cnt acc : Nat) :
    (digitsAux ds cnt acc).1 = cnt + ds.length ∧
      (digitsAux ds cnt acc).2.2 = [] := by
  induction ds generalizing cnt acc with
  | nil => simp [digitsAux]
  | cons c cs ih =>
    simp only [List.all_cons, Bool.and_eq_true] at h
    have := ih h.2 (cnt + 1) (acc * 10 + (c.toNat - 48))
    simp only [digitsAux, h.1, if_true]
    refine ⟨?_, this.2⟩
    rw [this.1]
    simp [List.length_cons]
    omega

/-- Every nonempty all-digit argument with positive value passes the pid
check of line 256. -/
theorem argIsPid_all_digits (ds : List Char) (h : ds.all Char.isDigit = true)
    (hpos : 0 < natOfDigits ds) : argIsPid ds = true := by
  cases ds with
  | nil => simp [natOfDigits, digitsAux] at hpos
  | cons c cs =>
    have hx := h
    simp only [List.all_cons, Bool.and_eq_true] at hx
    obtain ⟨hc, hcs⟩ := hx
    have hns := digit_not_space c hc
    have hne := digit_ne_sign c hc
    have hdrop : (c :: cs).dropWhile isSpaceC = c :: cs := by
      rw [List.dropWhile_cons]; simp [hns]
    have hall := digitsAux_all (c :: cs) h 0 0
    simp only [argIsPid, strtol10, hdrop, List.head?_cons]
    rw [if_neg (show ¬(some c = some '-' ∨ some c = some '+') by
      simp [hne.1, hne.2])]
    rw [if_neg (show ¬((digitsAux (c :: cs) 0 0).1 = 0) by
      rw [hall.1]; simp)]
    rw [if_neg (show ¬(some c = some '-') by simp [hne.2])]
    simp only [hall.2, List.isEmpty_nil, Bool.true_and, decide_eq_true_eq]
    rw [lt_min_iff]
    refine ⟨?_, by norm_num⟩
    exact_mod_cast hpos

/-- A '+'-prefixed all-digit argument with positive value also passes
the pid check: `strtol` accepts the sign, so the argument contains a
non-digit yet still dispatches to attach mode. -/
theorem argIsPid_plus (ds : List Char) (h : ds.all Char.isDigit = true)
    (hpos : 0 < natOfDigits ds) : argIsPid ('+' :: ds) = true := by
  have hdrop : ('+' :: ds).dropWhile isSpaceC = '+' :: ds := by
    rw [List.dropWhile_cons]
    simp [show isSpaceC '+' = false by decide]
  have hall := digitsAux_all ds h 0 0
  have hlen : ds ≠ [] := by
    intro he
    rw [he] at hpos
    simp [natOfDigits, digitsAux] at hpos
  simp only [argIsPid, strtol10, hdrop, List.head?_cons]
  rw [if_pos (show some '+' = some '-' ∨ True from Or.inr trivial),
    List.tail_cons]
  rw [if_neg (show ¬((digitsAux ds 0 0).1 = 0) by
    rw [hall.1]; simpa [List.length_eq_zero] using hlen)]
  rw [if_neg (show ¬(some '+' = some '-') by simp)]
  simp only [hall.2, List.isEmpty_nil, Bool.true_and, decide_eq_true_eq]
  rw [lt_min_iff]
  refine ⟨?_, by norm_num⟩
  exact_mod_cast hpos

/-- C10: the claim that any argument containing a non-digit character is
always treated as an executable path is false: `strtol` accepts an
optional sign, so "+42" — which contains the non-digit '+' — parses
fully to the positive value 42 and `main` takes the attach path on it. -/
theorem c10_counterexample :
    argIsPid ("+42".toList) = true ∧
    ('+' ∈ "+42".toList) ∧ ('+'.isDigit = false) ∧
    (main [['t'], "+42".toList] envOkC stC).2.1.head? = some Act.attachA := by
  refine ⟨by decide, by decide, by decide, ?_⟩
  rw [main_mode_head]
  rw [if_pos (by decide)]

/-- C10 (amended): the attach path is taken exactly when `strtol`
consumes the entire first argument with a positive value.  Every
nonempty all-digit argument with positive value attaches, as claimed —
but so does the same argument prefixed with '+' (a non-digit), so a
non-digit character does not force the spawn path; an argument the pid
check rejects (zero, negative, or trailing non-digits, e.g. "0", "-7",
"12x") spawns. -/
theorem c10_amended (ds s t : List Char) (rest : List (List Char))
    (env : Env) (st : St)
    (h : ds.all Char.isDigit = true) (hpos : 0 < natOfDigits ds) :
    argIsPid ds = true ∧
    argIsPid ('+' :: ds) = true ∧
    (main (t :: ('+' :: ds) :: rest) env st).2.1.head? = some Act.attachA ∧
    (argIsPid s = false →
      (main (t :: s :: rest) env st).2.1.head? = some Act.forkA) ∧
    argIsPid ("0".toList) = false ∧
    argIsPid ("-7".toList) = false ∧
    argIsPid ("12x".toList) = false := by
  refine ⟨argIsPid_all_digits ds h hpos, argIsPid_plus ds h hpos, ?_, ?_,
    by decide, by decide, by decide⟩
  · rw [main_mode_head, if_pos (argIsPid_plus ds h hpos)]
  · intro hs
    rw [main_mode_head, if_neg (by simp [hs])]

/-- C10 witness: "42" attaches, "+42" attaches, "ls" spawns. -/
theorem c10_amended_witness :
    (("42".toList).all Char.isDigit = true ∧ 0 < natOfDigits ("42".toList)) ∧
    (argIsPid ("42".toList) = true ∧
     argIsPid ('+' :: "42".toList) = true ∧
     (main [['t'], '+' :: "42".toList] envOkC stC).2.1.head? =
       some Act.attachA ∧
     (argIsPid ("ls".toList) = false →
       (main [['t'], "ls".toList] envOkC stC).2.1.head? = some Act.forkA) ∧
     argIsPid ("0".toList) = false ∧
     argIsPid ("-7".toList) = false ∧
     argIsPid ("12x".toList) = false) :=
  ⟨⟨by decide, by decide⟩,
   c10_amended ("42".toList) ("ls".toList) ['t'] [] envOkC stC
     (by decide) (by decide)⟩

end PtraceTracer
